import Mathlib

/-!
Verification development for the cameradb per-camera stream manager.

This file shallowly embeds the stream-manager core of src/app_web.py
(class CameraStream together with the registry routes add_camera,
delete_camera and init_cameras), plus a small buffer-store model of the
numpy frame objects used to settle the aliasing claims about get_frame.

Modelling conventions:
- machine integers are Nat; wall-clock times, sleeps and the fps value
  (a Python float obtained as a quotient of a count by an elapsed time)
  are Rat;
- the effect of the external codec/network services (cv2.VideoCapture,
  cap.read, cv2.imencode) is supplied per call through explicit outcome
  parameters, since the spec declares them opaque collaborators;
- a decoded raster frame is abstracted to its dimensions, an optional
  synthesized solid-fill colour and the list of text overlays stamped on
  it; pixel payloads only matter for the aliasing claims and get their
  own store model at the end of the definitions.
-/

namespace CameraDB

/-- A decoded raster frame: dimensions, an optional synthesized solid
background colour (np.zeros placeholders), and the text overlays that
cv2.putText has stamped onto it. -/
structure Frame where
  width : Nat
  height : Nat
  fill : Option (Nat × Nat × Nat)
  overlays : List String
deriving Repr, DecidableEq

/-- A cv2.VideoCapture handle as configured by CameraStream.connect:
the URL it was opened on, the CAP_PROP_BUFFERSIZE and CAP_PROP_FPS
properties set on it, and whether isOpened() reports true. -/
structure Capture where
  url : String
  buffersize : Nat
  fpsProp : Nat
  opened : Bool
deriving Repr, DecidableEq

/-- Outcome of one cv2.VideoCapture(url) attempt inside connect():
the constructor raised, the handle did not open, it opened but the
probe read yielded no frame, or it opened and yielded a decodable
frame. -/
inductive OpenOutcome where
  | raised
  | notOpened
  | openedNoFrame
  | openedFrame (f : Frame)
deriving Repr, DecidableEq

/-- State of one CameraStream object (src/app_web.py lines 34-51).
The fields loopStarted and loop_start_time are ghost observations
recording that start() spawned the _read_frames thread and when; the
code itself never reads them. -/
structure CameraStream where
  camera_id : Nat
  name : String
  ip : String
  username : String
  password : String
  port : Nat
  stream_type : String
  fps_limit : Nat
  cap : Option Capture
  frame : Option Frame
  is_connected : Bool
  fps : Rat
  frame_count : Nat
  start_time : Rat
  running : Bool
  loopStarted : Bool
  loop_start_time : Rat
deriving Repr, DecidableEq

/-- CameraStream.__init__; tInit is the time.time() value taken for
self.start_time at construction. -/
def initStream (camera_id : Nat) (name ip username password : String)
    (port : Nat) (stream_type : String) (fps_limit : Nat) (tInit : Rat) :
    CameraStream :=
  { camera_id := camera_id, name := name, ip := ip, username := username
    password := password, port := port, stream_type := stream_type
    fps_limit := fps_limit, cap := none, frame := none, is_connected := false
    fps := 0, frame_count := 0, start_time := tInit, running := false
    loopStarted := false, loop_start_time := 0 }

/-- The CHANNELS dict of src/app_web.py line 32; a lookup of any other
key raises KeyError, modelled as none. -/
def CHANNELS (stream_type : String) : Option String :=
  if stream_type = "main" then some ("101")
  else if stream_type = "sub" then some ("102")
  else none

/-- First RTSP_TEMPLATES entry, substituted. -/
def rtspUrlChannels (user password ip : String) (port : Nat)
    (channel : String) : String :=
  "rtsp://" ++ user ++ ":" ++ password ++ "@" ++ ip ++ ":" ++ toString port
    ++ "/Streaming/Channels/" ++ channel ++ "?tcp"

/-- Second RTSP_TEMPLATES entry, substituted. -/
def rtspUrlH264 (user password ip : String) (port : Nat)
    (stream : String) : String :=
  "rtsp://" ++ user ++ ":" ++ password ++ "@" ++ ip ++ ":" ++ toString port
    ++ "/h264/ch1/" ++ stream ++ "/av_stream"

/-- CameraStream.get_rtsp_urls (src/app_web.py lines 53-66): formats
each template with the config fields; the only failure is the KeyError
from CHANNELS on an unrecognized stream_type. -/
def get_rtsp_urls (s : CameraStream) : Except String (List String) :=
  match CHANNELS s.stream_type with
  | none => Except.error ("KeyError")
  | some channel =>
    Except.ok
      [ rtspUrlChannels s.username s.password s.ip s.port channel,
        rtspUrlH264 s.username s.password s.ip s.port
          (if s.stream_type = "main" then ("main_stream") else ("sub_stream")) ]

/-- Whether an open attempt counts as a success for connect(): the
handle opened and the probe read returned a frame. -/
def openSucceeds : OpenOutcome → Bool
  | OpenOutcome.openedFrame _ => true
  | _ => false

/-- The url loop of CameraStream.connect (src/app_web.py lines 70-88)
over a candidate list: each candidate is opened with buffersize 1 and a
CAP_PROP_FPS hint of fps_limit; the first one that opens and yields a
frame is kept (self.cap assigned, is_connected set) and the loop
returns True; an exception, a handle that does not open, or an opened
handle whose probe read fails all just move on to the next candidate;
when the list is exhausted is_connected is cleared and False returned
(self.cap is left as it was). -/
def connectTry (env : String → OpenOutcome) (s : CameraStream) :
    List String → CameraStream × Bool
  | [] => ({ s with is_connected := false }, false)
  | url :: rest =>
    match env url with
    | OpenOutcome.openedFrame _ =>
      ({ s with
          cap := some { url := url, buffersize := 1
                        fpsProp := s.fps_limit, opened := true }
          is_connected := true }, true)
    | _ => connectTry env s rest

/-- CameraStream.connect (src/app_web.py lines 68-88): builds the
candidate urls, then runs the url loop; a KeyError from get_rtsp_urls
propagates. -/
def connect (env : String → OpenOutcome) (s : CameraStream) :
    Except String (CameraStream × Bool) :=
  match get_rtsp_urls s with
  | Except.error e => Except.error e
  | Except.ok urls => Except.ok (connectTry env s urls)

/-- CameraStream.start (src/app_web.py lines 90-95): a no-op when
already running, otherwise sets running and spawns the _read_frames
thread; tNow records (as ghost state) the moment the thread started. -/
def startStream (tNow : Rat) (s : CameraStream) : CameraStream :=
  if s.running then s
  else { s with running := true, loopStarted := true, loop_start_time := tNow }

/-- The resize guard shared by the acquisition loops: a frame wider
than maxW is scaled to width maxW and height int(h * maxW / w) (Python
int() truncation of the exact ratio, i.e. Nat floor division); other
frames pass through untouched. -/
def resizeDims (maxW w h : Nat) : Nat × Nat :=
  if w > maxW then (maxW, h * maxW / w) else (w, h)

/-- The literal width bound 800 of src/app_web.py line 109. -/
def MAX_PUBLISH_WIDTH : Nat := 800

/-- Frame normalization in app_web._read_frames (lines 108-110). -/
def normalizeFrame (f : Frame) : Frame :=
  let d := resizeDims MAX_PUBLISH_WIDTH f.width f.height
  { f with width := d.1, height := d.2 }

/-- The FPS text cv2.putText stamps on each live frame. -/
def fpsOverlay (q : Rat) : String := "FPS: " ++ toString q

/-- The successful-read branch of _read_frames (src/app_web.py lines
107-122): normalize, increment the frame counter, recompute fps as
count / (now - start_time) exactly when the new count is a multiple of
30, stamp the name and FPS overlays, and publish into the single-slot
cache under the lock. tNow is the time.time() value of this cycle. -/
def publishFrame (tNow : Rat) (f : Frame) (s : CameraStream) : CameraStream :=
  let f1 := normalizeFrame f
  let count := s.frame_count + 1
  let fps := if count % 30 = 0 then (count : Rat) / (tNow - s.start_time)
             else s.fps
  let f2 := { f1 with overlays := f1.overlays ++ [s.name, fpsOverlay fps] }
  { s with frame_count := count, fps := fps, frame := some f2 }

/-- Outcome of one cap.read() inside the loop. -/
inductive ReadOutcome where
  | ok (f : Frame)
  | fail
deriving Repr, DecidableEq

/-- What one _read_frames cycle did, with the sleep it performs (in
seconds) where it sleeps. -/
inductive LoopAction where
  | exited
  | reconnected
  | sleptRetry (secs : Rat)
  | published (secs : Rat)
  | sleptReadFail (secs : Rat)
deriving Repr, DecidableEq

/-- The guard `not self.cap or not self.cap.isOpened()`. -/
def capOpen (s : CameraStream) : Bool :=
  match s.cap with
  | none => false
  | some c => c.opened

/-- One iteration of CameraStream._read_frames (src/app_web.py lines
97-126). When running is clear the loop exits. When the handle is
absent or closed it attempts connect(): on success it continues, on
failure it sleeps 3 seconds before retrying (an uncaught KeyError
would kill the thread). Otherwise it reads: a successful read runs the
publish path then sleeps 1/fps_limit; a failed read sleeps 0.1 seconds
and loops, leaving the state untouched. -/
def readFramesStep (env : String → OpenOutcome) (tNow : Rat)
    (r : ReadOutcome) (s : CameraStream) : CameraStream × LoopAction :=
  if s.running = false then (s, LoopAction.exited)
  else if capOpen s = false then
    match connect env s with
    | Except.error _ => (s, LoopAction.exited)
    | Except.ok (s1, ok) =>
      if ok then (s1, LoopAction.reconnected)
      else (s1, LoopAction.sleptRetry 3)
  else
    match r with
    | ReadOutcome.ok f =>
      (publishFrame tNow f s, LoopAction.published (1 / (s.fps_limit : Rat)))
    | ReadOutcome.fail => (s, LoopAction.sleptReadFail (1 / 10))

/-- CameraStream.get_frame (src/app_web.py lines 128-130): under the
lock, a copy of the cached frame, or None when the cache is empty.
Frames are values here, so the copy is the value itself; the aliasing
content of .copy() is settled separately on the buffer-store model. -/
def get_frame (s : CameraStream) : Option Frame := s.frame

/-- CameraStream._placeholder (src/app_web.py lines 145-150): a
640x480 solid black image with the camera name and a Disconnected
overlay. -/
def placeholder (s : CameraStream) : Frame :=
  { width := 640, height := 480, fill := some (0, 0, 0)
    overlays := [s.name, "Disconnected"] }

/-- The frame one generate_frames cycle chooses to encode: the cached
frame when present, the placeholder otherwise. -/
def publisherFrame (s : CameraStream) : Frame :=
  match get_frame s with
  | none => placeholder s
  | some fr => fr

/-- Outcome of one cv2.imencode call. -/
inductive EncodeOutcome where
  | ok (bytes : List Nat)
  | fail
deriving Repr, DecidableEq

/-- One multipart part as yielded by generate_frames. -/
structure Chunk where
  contentType : String
  payload : List Nat
deriving Repr, DecidableEq

/-- One cycle of CameraStream.generate_frames (src/app_web.py lines
132-143): pick the cached frame or the placeholder, JPEG-encode it;
on success yield the multipart chunk and sleep 1/fps_limit, on encode
failure skip the chunk (and the sleep) and continue. -/
def generateFramesCycle (enc : Frame → EncodeOutcome) (s : CameraStream) :
    Option Chunk × Rat :=
  match enc (publisherFrame s) with
  | EncodeOutcome.ok b =>
    (some { contentType := "image/jpeg", payload := b }, 1 / (s.fps_limit : Rat))
  | EncodeOutcome.fail => (none, 0)

/-- CameraStream.stop (src/app_web.py lines 152-157): clears running
and is_connected; when a handle is held it is released (the returned
Bool reports whether a release happened) and the field cleared. -/
def stopStream (s : CameraStream) : CameraStream × Bool :=
  let s1 := { s with running := false, is_connected := false }
  match s1.cap with
  | some _ => ({ s1 with cap := none }, true)
  | none => (s1, false)

/-- The camera_streams dict keyed by camera id. -/
abbrev Registry := List (Nat × CameraStream)

/-- Dict lookup camera_streams.get(id). -/
def findStream (r : Registry) (id : Nat) : Option CameraStream :=
  (r.find? (fun p => p.1 == id)).map Prod.snd

/-- Dict assignment camera_streams[id] = s (key order is never
observed, so replacement is modelled as remove-then-append). -/
def setStream (r : Registry) (id : Nat) (s : CameraStream) : Registry :=
  r.filter (fun p => p.1 != id) ++ [(id, s)]

/-- Dict removal del camera_streams[id]. -/
def eraseStream (r : Registry) (id : Nat) : Registry :=
  r.filter (fun p => p.1 != id)

/-- The stream part of the add_camera route (src/app_web.py lines
224-236), also run per camera by init_cameras (lines 180-194): build
the CameraStream (stream_type sub, fps_limit 15), run one synchronous
connect() over all candidates, start the acquisition loop only when
that connect returned True, and register the stream either way. tInit
is construction time, tStart the moment start() would spawn the
thread. -/
def addCameraStream (env : String → OpenOutcome) (tInit tStart : Rat)
    (r : Registry) (camera_id : Nat) (name ip username password : String)
    (port : Nat) : Except String Registry :=
  let s := initStream camera_id name ip username password port ("sub") 15 tInit
  match connect env s with
  | Except.error e => Except.error e
  | Except.ok (s1, ok) =>
    let s2 := if ok then startStream tStart s1 else s1
    Except.ok (setStream r camera_id s2)

/-- The stream part of the delete_camera route (src/app_web.py lines
250-253): when the id is registered, stop it and drop the entry; when
it is absent, do nothing. The Bool reports whether a capture handle
was released; the route succeeds (redirects) in every case. -/
def deleteCameraStream (r : Registry) (id : Nat) : Registry × Bool :=
  match findStream r id with
  | some s => (eraseStream r id, (stopStream s).2)
  | none => (r, false)

/-- The per-camera record of the health route (src/app_web.py lines
267-273). -/
def statusOf (s : CameraStream) : String × Bool × Rat :=
  (s.name, s.is_connected, s.fps)

/-- Folding a list of (time, frame) successful reads through the
publish path of the loop. -/
def runPublishes (s : CameraStream) (xs : List (Rat × Frame)) : CameraStream :=
  xs.foldl (fun acc tf => publishFrame tf.1 tf.2 acc) s

/-- A store of frame pixel buffers; an address is an index into the
list. Models the distinct numpy array objects behind self.frame and
the copies get_frame hands out. -/
structure FrameStore where
  bufs : List (List Nat)
deriving Repr, DecidableEq

/-- Content of the buffer at an address. -/
def readBuf (st : FrameStore) (a : Nat) : List Nat := st.bufs.getD a []

/-- In-place mutation of the buffer at an address (what a caller could
do to the array get_frame returned). -/
def writeBuf (st : FrameStore) (a : Nat) (d : List Nat) : FrameStore :=
  { bufs := st.bufs.set a d }

/-- The single-slot cache self.frame as a reference into the store. -/
structure FrameSlot where
  slot : Option Nat
deriving Repr, DecidableEq

/-- get_frame on the store model: under the lock, when the slot holds
a buffer, allocate a fresh buffer with the same content (.copy()) and
return its address; on an empty slot return none. -/
def getFrameCopy (st : FrameStore) (c : FrameSlot) : FrameStore × Option Nat :=
  match c.slot with
  | none => (st, none)
  | some a => ({ bufs := st.bufs ++ [readBuf st a] }, some st.bufs.length)

/-- The publish step on the store model: the loop produced a fresh
buffer d; under the lock the slot reference is swapped wholesale to
it. -/
def publishBuf (st : FrameStore) (d : List Nat) : FrameStore × FrameSlot :=
  ({ bufs := st.bufs ++ [d] }, { slot := some st.bufs.length })

/-- An environment in which every candidate URI is unreachable. -/
def envDead : String → OpenOutcome := fun _ => OpenOutcome.notOpened

/-- A small decoded frame used as concrete input. -/
def frameA : Frame :=
  { width := 320, height := 240, fill := none, overlays := [] }

/-- An open capture handle as connect() would configure it. -/
def capLive : Capture :=
  { url := "rtsp://cam", buffersize := 1, fpsProp := 15, opened := true }

/-- A freshly constructed stream (no connection yet). -/
def streamFresh : CameraStream :=
  initStream 2 ("camB") ("192.0.2.8") ("admin") ("pw") 554 ("sub") 15 0

/-- A stream whose loop is running with an open handle and a cached
frame. -/
def streamA : CameraStream :=
  { initStream 1 ("camA") ("192.0.2.9") ("admin") ("pw") 554 ("sub") 15 0 with
      cap := some capLive, is_connected := true, running := true
      loopStarted := true, frame := some frameA }

/-- An environment in which only the second candidate URI answers. -/
def env3 : String → OpenOutcome :=
  fun u => if u = "b" then OpenOutcome.openedFrame frameA
           else OpenOutcome.notOpened

/-- An encoder that always succeeds with a fixed payload. -/
def encOk : Frame → EncodeOutcome := fun _ => EncodeOutcome.ok [7, 7, 7]

/-- A stream constructed at time 0 whose loop thread was spawned at
time 10. -/
def s7start : CameraStream :=
  startStream 10 (initStream 1 ("cam7") ("192.0.2.7") ("admin") ("pw") 554 ("sub") 15 0)

/-- s7start after 29 successful reads. -/
def s7pre : CameraStream :=
  runPublishes s7start (List.replicate 29 (12, frameA))

/-- s7start after 30 successful reads, the last at wall time 13. -/
def s7run : CameraStream :=
  runPublishes s7start (List.replicate 30 (13, frameA))

/-- A config with a missing (empty) host. -/
def sNoHost : CameraStream :=
  initStream 3 ("camNoHost") ("") ("admin") ("pw") 554 ("sub") 15 0

/-! Helper lemmas about the registry dict operations. -/

theorem find_filter_ne (r : Registry) (id : Nat) :
    (r.filter (fun p => p.1 != id)).find? (fun p => p.1 == id) = none := by
  induction r with
  | nil => rfl
  | cons x t ih =>
    by_cases h : x.1 = id
    · simp [List.filter_cons, h]
    · simp [List.filter_cons, List.find?_cons, h]

theorem findStream_setStream (r : Registry) (id : Nat) (s : CameraStream) :
    findStream (setStream r id s) id = some s := by
  unfold findStream setStream
  induction r with
  | nil => simp [List.find?]
  | cons x t ih =>
    by_cases h : x.1 = id
    · simp [List.filter_cons, h]
    · simp [List.filter_cons, List.find?_cons, h]

theorem findStream_eraseStream (r : Registry) (id : Nat) :
    findStream (eraseStream r id) id = none := by
  unfold findStream eraseStream
  rw [find_filter_ne]
  rfl

/-! Helper lemmas about the frame buffer store. -/

theorem getD_concat_length (l : List (List Nat)) (x d : List Nat) :
    (l ++ [x]).getD l.length d = x := by
  induction l with
  | nil => rfl
  | cons y ys ih => simp

theorem getD_append_lt (l : List (List Nat)) (x d : List Nat) (a : Nat)
    (h : a < l.length) :
    (l ++ [x]).getD a d = l.getD a d := by
  induction l generalizing a with
  | nil => exact absurd h (Nat.not_lt_zero a)
  | cons y ys ih =>
    cases a with
    | zero => rfl
    | succ n =>
      have hn : n < ys.length := Nat.lt_of_succ_lt_succ h
      simpa using ih n hn

theorem set_concat_length (l : List (List Nat)) (x d2 : List Nat) :
    (l ++ [x]).set l.length d2 = l ++ [d2] := by
  induction l with
  | nil => rfl
  | cons y ys ih => simp

/-! Helper lemmas about the connect() candidate loop. -/

theorem connectTry_cons_success (env : String → OpenOutcome)
    (s : CameraStream) (u : String) (rest : List String)
    (h : openSucceeds (env u) = true) :
    connectTry env s (u :: rest) =
      ({ s with
          cap := some { url := u, buffersize := 1
                        fpsProp := s.fps_limit, opened := true }
          is_connected := true }, true) := by
  cases hv : env u with
  | raised => simp [openSucceeds, hv] at h
  | notOpened => simp [openSucceeds, hv] at h
  | openedNoFrame => simp [openSucceeds, hv] at h
  | openedFrame f => simp [connectTry, hv]

theorem connectTry_cons_fail (env : String → OpenOutcome)
    (s : CameraStream) (u : String) (rest : List String)
    (h : openSucceeds (env u) = false) :
    connectTry env s (u :: rest) = connectTry env s rest := by
  cases hv : env u with
  | raised => simp [connectTry, hv]
  | notOpened => simp [connectTry, hv]
  | openedNoFrame => simp [connectTry, hv]
  | openedFrame f => simp [openSucceeds, hv] at h

theorem connectTry_all_fail (env : String → OpenOutcome)
    (s : CameraStream) (urls : List String)
    (h : ∀ u ∈ urls, openSucceeds (env u) = false) :
    connectTry env s urls = ({ s with is_connected := false }, false) := by
  induction urls with
  | nil => rfl
  | cons u rest ih =>
    rw [connectTry_cons_fail env s u rest (h u (List.mem_cons_self u rest))]
    exact ih (fun v hv => h v (List.mem_cons_of_mem u hv))

theorem connectTry_find (env : String → OpenOutcome) (s : CameraStream)
    (urls : List String) (u : String)
    (h : urls.find? (fun v => openSucceeds (env v)) = some u) :
    connectTry env s urls =
      ({ s with
          cap := some { url := u, buffersize := 1
                        fpsProp := s.fps_limit, opened := true }
          is_connected := true }, true) := by
  induction urls with
  | nil => simp [List.find?] at h
  | cons w rest ih =>
    cases hb : openSucceeds (env w)
    · have hf : List.find? (fun v => openSucceeds (env v)) (w :: rest)
          = List.find? (fun v => openSucceeds (env v)) rest :=
        List.find?_cons_of_neg rest (by simp [hb])
      rw [hf] at h
      rw [connectTry_cons_fail env s w rest hb]
      exact ih h
    · have hf : List.find? (fun v => openSucceeds (env v)) (w :: rest)
          = some w :=
        List.find?_cons_of_pos rest hb
      rw [hf] at h
      cases h
      exact connectTry_cons_success env s u rest hb

theorem connectTry_true_iff (env : String → OpenOutcome)
    (s : CameraStream) (urls : List String) :
    (connectTry env s urls).2 = true ↔
      ∃ u ∈ urls, openSucceeds (env u) = true := by
  induction urls with
  | nil => simp [connectTry]
  | cons w rest ih =>
    cases hb : openSucceeds (env w)
    · rw [connectTry_cons_fail env s w rest hb, ih]
      constructor
      · rintro ⟨v, hv, h2⟩
        exact ⟨v, List.mem_cons_of_mem w hv, h2⟩
      · rintro ⟨v, hv, h2⟩
        rcases List.mem_cons.mp hv with h3 | h3
        · rw [h3] at h2
          simp [hb] at h2
        · exact ⟨v, h3, h2⟩
    · rw [connectTry_cons_success env s w rest hb]
      constructor
      · intro _
        exact ⟨w, List.mem_cons_self w rest, hb⟩
      · intro _
        rfl

/-- C3: connect tries the resolver candidates in order; it succeeds
exactly when some candidate opens and yields a decodable frame; the
kept handle belongs to the first such candidate and carries buffersize
1 and a CAP_PROP_FPS hint equal to fps_limit; a failing candidate
(exception, unopened handle, or no probe frame) is skipped in favour
of the next rather than raised; once one succeeds the rest are never
consulted; and only when every candidate fails does the whole call
report failure. -/
theorem C3_connect_order (env : String → OpenOutcome) (s : CameraStream)
    (urls : List String) :
    ((connectTry env s urls).2 = true ↔
      ∃ u ∈ urls, openSucceeds (env u) = true) ∧
    (∀ u, urls.find? (fun v => openSucceeds (env v)) = some u →
      connectTry env s urls =
        ({ s with
            cap := some { url := u, buffersize := 1
                          fpsProp := s.fps_limit, opened := true }
            is_connected := true }, true)) ∧
    (∀ u rest, openSucceeds (env u) = true →
      connectTry env s (u :: rest) = connectTry env s [u]) ∧
    (∀ u rest, openSucceeds (env u) = false →
      connectTry env s (u :: rest) = connectTry env s rest) ∧
    ((∀ u ∈ urls, openSucceeds (env u) = false) →
      connectTry env s urls = ({ s with is_connected := false }, false)) := by
  refine ⟨connectTry_true_iff env s urls,
    fun u h => connectTry_find env s urls u h, ?_,
    fun u rest h => connectTry_cons_fail env s u rest h,
    fun h => connectTry_all_fail env s urls h⟩
  intro u rest h
  rw [connectTry_cons_success env s u rest h,
    connectTry_cons_success env s u [] h]

theorem C3_connect_order_witness :
    connectTry env3 streamFresh ["a", "b", "c"] =
      ({ streamFresh with
          cap := some { url := "b", buffersize := 1
                        fpsProp := streamFresh.fps_limit, opened := true }
          is_connected := true }, true) :=
  (C3_connect_order env3 streamFresh ["a", "b", "c"]).2.1 ("b") (by decide)

/-- C4: stop is idempotent. On a single CameraStream, a second stop
leaves the state fixed and releases no handle (no double-release
fault); at the registry level, deleting the same camera id a second
time is a no-op, and deleting an id absent from the registry leaves
the registry untouched and completes (the route redirects) rather than
erroring. -/
theorem C4_stop_idempotent (s : CameraStream) (r : Registry) (id : Nat) :
    stopStream (stopStream s).1 = ((stopStream s).1, false) ∧
    deleteCameraStream (deleteCameraStream r id).1 id
      = ((deleteCameraStream r id).1, false) ∧
    (findStream r id = none → deleteCameraStream r id = (r, false)) := by
  refine ⟨?_, ?_, ?_⟩
  · cases h : s.cap <;> simp [stopStream, h]
  · unfold deleteCameraStream
    cases h : findStream r id with
    | none => simp [h]
    | some s0 => simp [h, findStream_eraseStream]
  · intro h
    simp [deleteCameraStream, h]

theorem C4_stop_idempotent_witness :
    stopStream (stopStream streamA).1 = ((stopStream streamA).1, false) ∧
    deleteCameraStream ([] : Registry) 5 = ([], false) :=
  ⟨(C4_stop_idempotent streamA [] 5).1,
   (C4_stop_idempotent streamA [] 5).2.2 rfl⟩

/-- C5: before the first successful read the cache is empty: a freshly
constructed stream has no frame, get_frame returns none, and every
publisher cycle then substitutes the synthesized placeholder (solid
black background plus the camera name and a Disconnected overlay) and,
whenever encoding succeeds, still yields a multipart chunk, so a
viewer of a disconnected camera receives a placeholder stream rather
than a hang or an error. -/
theorem C5_empty_cache_placeholder (cid : Nat) (nm ip u p : String)
    (port : Nat) (st : String) (fl : Nat) (t : Rat) (s : CameraStream)
    (enc : Frame → EncodeOutcome) (b : List Nat)
    (hempty : s.frame = none) :
    (initStream cid nm ip u p port st fl t).frame = none ∧
    get_frame s = none ∧
    publisherFrame s = placeholder s ∧
    (placeholder s).fill = some (0, 0, 0) ∧
    (placeholder s).overlays = [s.name, "Disconnected"] ∧
    (enc (placeholder s) = EncodeOutcome.ok b →
      (generateFramesCycle enc s).1
        = some { contentType := "image/jpeg", payload := b }) := by
  refine ⟨rfl, hempty, ?_, rfl, rfl, ?_⟩
  · simp [publisherFrame, get_frame, hempty]
  · intro henc
    simp [generateFramesCycle, publisherFrame, get_frame, hempty, henc]

theorem C5_empty_cache_placeholder_witness :
    publisherFrame streamFresh = placeholder streamFresh ∧
    (generateFramesCycle encOk streamFresh).1
      = some { contentType := "image/jpeg", payload := [7, 7, 7] } :=
  ⟨(C5_empty_cache_placeholder 2 ("camB") ("192.0.2.8") ("admin") ("pw")
      554 ("sub") 15 0 streamFresh encOk [7, 7, 7] rfl).2.2.1,
   (C5_empty_cache_placeholder 2 ("camB") ("192.0.2.8") ("admin") ("pw")
      554 ("sub") 15 0 streamFresh encOk [7, 7, 7] rfl).2.2.2.2.2 rfl⟩

/-- C6: frame normalization. For any width bound maxW, a frame wider
than maxW is resized to width exactly maxW with height int(h * maxW / w)
(the floor of the exact ratio, hence within one pixel of exact aspect
preservation), and a frame no wider than maxW passes through
unresized; instantiated at the app_web bound MAX_PUBLISH_WIDTH = 800
for normalizeFrame. -/
theorem C6_normalize (maxW w h : Nat) (f : Frame) :
    (maxW < w →
      (resizeDims maxW w h).1 = maxW ∧
      (resizeDims maxW w h).2 = h * maxW / w ∧
      (resizeDims maxW w h).2 * w ≤ h * maxW ∧
      h * maxW < ((resizeDims maxW w h).2 + 1) * w) ∧
    (w ≤ maxW → resizeDims maxW w h = (w, h)) ∧
    (f.width ≤ MAX_PUBLISH_WIDTH → normalizeFrame f = f) ∧
    (MAX_PUBLISH_WIDTH < f.width →
      (normalizeFrame f).width = MAX_PUBLISH_WIDTH ∧
      (normalizeFrame f).height = f.height * MAX_PUBLISH_WIDTH / f.width) := by
  have hw : ∀ w2, maxW < w2 → 0 < w2 := fun w2 h2 => Nat.lt_of_le_of_lt (Nat.zero_le maxW) h2
  refine ⟨fun hlt => ?_, fun hle => ?_, fun hle => ?_, fun hlt => ?_⟩
  · refine ⟨by simp [resizeDims, hlt], by simp [resizeDims, hlt], ?_, ?_⟩
    · simpa [resizeDims, hlt] using Nat.div_mul_le_self (h * maxW) w
    · have h3 : h * maxW < h * maxW / w * w + w := Nat.lt_div_mul_add (hw w hlt)
      have h4 : (resizeDims maxW w h).2 = h * maxW / w := by simp [resizeDims, hlt]
      rw [h4, Nat.add_mul, Nat.one_mul]
      exact h3
  · simp [resizeDims, Nat.not_lt.mpr hle]
  · simp [normalizeFrame, resizeDims, Nat.not_lt.mpr hle]
  · exact ⟨by simp [normalizeFrame, resizeDims, hlt],
      by simp [normalizeFrame, resizeDims, hlt]⟩

theorem C6_normalize_witness :
    800 < 1600 ∧ resizeDims 800 1600 900 = (800, 450) ∧
    resizeDims 800 640 480 = (640, 480) :=
  ⟨by decide,
   by
    have h := (C6_normalize 800 1600 900 frameA).1 (by decide)
    have h2 : resizeDims 800 1600 900
        = ((resizeDims 800 1600 900).1, (resizeDims 800 1600 900).2) := rfl
    rw [h2, h.1, h.2.1],
   (C6_normalize 800 640 480 frameA).2.1 (by decide)⟩

/-- C9: stop leaves the published frame and metrics alone. After
stop() on a stream holding a cached frame, the frame, fps and frame
counter are unchanged; only running, is_connected and the capture
handle are cleared; get_frame still returns the last frame and a
viewer delivery loop keeps receiving it rather than the Disconnected
placeholder. -/
theorem C9_stop_preserves_frame (s : CameraStream) (f : Frame)
    (hf : s.frame = some f) :
    (stopStream s).1.frame = s.frame ∧
    (stopStream s).1.fps = s.fps ∧
    (stopStream s).1.frame_count = s.frame_count ∧
    (stopStream s).1.running = false ∧
    (stopStream s).1.is_connected = false ∧
    (stopStream s).1.cap = none ∧
    get_frame (stopStream s).1 = some f ∧
    publisherFrame (stopStream s).1 = f := by
  cases h : s.cap <;>
    simp [stopStream, h, get_frame, publisherFrame, hf]

theorem C9_stop_preserves_frame_witness :
    get_frame (stopStream streamA).1 = some frameA ∧
    publisherFrame (stopStream streamA).1 = frameA :=
  ⟨(C9_stop_preserves_frame streamA frameA rfl).2.2.2.2.2.2.1,
   (C9_stop_preserves_frame streamA frameA rfl).2.2.2.2.2.2.2⟩

/-- C10: get_frame hands out a copy, never the cache's own buffer. On
the buffer-store model, when the slot references buffer a, get_frame
returns a freshly allocated address distinct from a holding the same
content; mutating the returned buffer leaves the cached buffer
unchanged; and a publish swaps the slot wholesale to a fresh buffer
without touching the old one. Both operations are single atomic steps,
matching the code where each runs entirely under self.lock. -/
theorem C10_get_frame_copies (st : FrameStore) (c : FrameSlot) (a : Nat)
    (d d2 : List Nat) (hs : c.slot = some a) (ha : a < st.bufs.length) :
    (getFrameCopy st c).2 = some st.bufs.length ∧
    st.bufs.length ≠ a ∧
    readBuf (getFrameCopy st c).1 st.bufs.length = readBuf st a ∧
    readBuf (writeBuf (getFrameCopy st c).1 st.bufs.length d2) a = readBuf st a ∧
    (publishBuf st d).2.slot = some st.bufs.length ∧
    readBuf (publishBuf st d).1 a = readBuf st a := by
  refine ⟨by simp [getFrameCopy, hs], Nat.ne_of_gt ha, ?_, ?_, rfl, ?_⟩
  · simp only [getFrameCopy, hs]
    exact getD_concat_length st.bufs (readBuf st a) []
  · simp only [getFrameCopy, hs, writeBuf, readBuf]
    rw [set_concat_length]
    exact getD_append_lt st.bufs d2 [] a ha
  · simp only [publishBuf, readBuf]
    exact getD_append_lt st.bufs d [] a ha

theorem C10_get_frame_copies_witness :
    (getFrameCopy { bufs := [[1, 2]] } { slot := some 0 }).2 = some 1 ∧
    readBuf (writeBuf (getFrameCopy { bufs := [[1, 2]] } { slot := some 0 }).1
      1 [9]) 0 = [1, 2] :=
  ⟨(C10_get_frame_copies { bufs := [[1, 2]] } { slot := some 0 } 0
      [5] [9] rfl (by decide)).1,
   (C10_get_frame_copies { bufs := [[1, 2]] } { slot := some 0 } 0
      [5] [9] rfl (by decide)).2.2.2.1⟩

/-! Helper lemmas about the resolver and registry add. -/

theorem get_rtsp_urls_sub (s : CameraStream) (h : s.stream_type = "sub") :
    get_rtsp_urls s = Except.ok
      [ rtspUrlChannels s.username s.password s.ip s.port ("102"),
        rtspUrlH264 s.username s.password s.ip s.port ("sub_stream") ] := by
  simp [get_rtsp_urls, CHANNELS, h]

theorem connect_dead (env : String → OpenOutcome) (s : CameraStream)
    (hsub : s.stream_type = "sub")
    (hdead : ∀ u, openSucceeds (env u) = false) :
    connect env s = Except.ok ({ s with is_connected := false }, false) := by
  unfold connect
  rw [get_rtsp_urls_sub s hsub]
  exact congrArg Except.ok (connectTry_all_fail env s _ (fun u _ => hdead u))

/-- C8 counterexample: the resolver does not validate the host. For a
config whose host is missing (empty), get_rtsp_urls succeeds with the
two template URLs (carrying an empty authority host) instead of
failing with a ConfigError; no such error path exists in the code. -/
theorem C8_counterexample :
    sNoHost.ip = "" ∧
    get_rtsp_urls sNoHost = Except.ok
      [ "rtsp://admin:pw@:554/Streaming/Channels/102?tcp",
        "rtsp://admin:pw@:554/h264/ch1/sub_stream/av_stream" ] := by
  exact ⟨rfl, rfl⟩

/-- C8 amended: resolving a config to its ordered candidate URI list
is a pure function with no I/O whose only error path is an
unrecognized quality tier (the KeyError of the CHANNELS lookup); a
missing host is not detected, so any host value, including the empty
string, yields the two template URLs in their fixed order. -/
theorem C8_amended (s : CameraStream) :
    (s.stream_type = "sub" →
      get_rtsp_urls s = Except.ok
        [ rtspUrlChannels s.username s.password s.ip s.port ("102"),
          rtspUrlH264 s.username s.password s.ip s.port ("sub_stream") ]) ∧
    (s.stream_type = "main" →
      get_rtsp_urls s = Except.ok
        [ rtspUrlChannels s.username s.password s.ip s.port ("101"),
          rtspUrlH264 s.username s.password s.ip s.port ("main_stream") ]) ∧
    (s.stream_type ≠ "main" → s.stream_type ≠ "sub" →
      get_rtsp_urls s = Except.error ("KeyError")) := by
  refine ⟨fun h => get_rtsp_urls_sub s h, fun h => ?_, fun h1 h2 => ?_⟩
  · simp [get_rtsp_urls, CHANNELS, h]
  · simp [get_rtsp_urls, CHANNELS, h1, h2]

theorem C8_amended_witness :
    get_rtsp_urls sNoHost = Except.ok
      [ rtspUrlChannels ("admin") ("pw") ("") 554 ("102"),
        rtspUrlH264 ("admin") ("pw") ("") 554 ("sub_stream") ] :=
  (C8_amended sNoHost).1 rfl

/-- C1 counterexample: a camera whose candidate URIs are all
unreachable. add_camera registers the entry and status reads
connected=false, but because start() is only called when the initial
synchronous connect() returns True, the acquisition loop is never
spawned (running and loopStarted are both false), so no retry at the
3-second delay ever happens, contradicting the claim that retries
continue indefinitely. -/
theorem C1_counterexample :
    ((addCameraStream envDead 0 0 [] 1 ("cam") ("192.0.2.1") ("admin")
        ("pw") 554).map
      (fun r => (findStream r 1).map
        (fun s => (s.is_connected, s.running, s.loopStarted))))
      = Except.ok (some (false, false, false)) := by
  rfl

/-- C1 amended: for a config with zero reachable candidate URIs,
add_camera still creates the registry entry (after one full
synchronous pass over all candidates) and its status reads
connected=false with fps 0, but the acquisition loop is not started:
running and loopStarted stay false, so the stream never retries; the
3-second retry pacing exists only inside an already-running loop. -/
theorem C1_amended (env : String → OpenOutcome) (tInit tStart : Rat)
    (r : Registry) (id : Nat) (nm ip user pw : String) (port : Nat)
    (hdead : ∀ u, openSucceeds (env u) = false) :
    addCameraStream env tInit tStart r id nm ip user pw port
      = Except.ok (setStream r id
          (initStream id nm ip user pw port ("sub") 15 tInit)) ∧
    findStream (setStream r id
        (initStream id nm ip user pw port ("sub") 15 tInit)) id
      = some (initStream id nm ip user pw port ("sub") 15 tInit) ∧
    statusOf (initStream id nm ip user pw port ("sub") 15 tInit)
      = (nm, false, 0) ∧
    (initStream id nm ip user pw port ("sub") 15 tInit).running = false ∧
    (initStream id nm ip user pw port ("sub") 15 tInit).loopStarted = false := by
  refine ⟨?_, findStream_setStream r id _, rfl, rfl, rfl⟩
  have hc := connect_dead env
    (initStream id nm ip user pw port ("sub") 15 tInit) rfl hdead
  simp only [addCameraStream, hc]
  rfl

theorem C1_amended_witness :
    addCameraStream envDead 0 0 [] 1 ("cam") ("192.0.2.1") ("admin")
        ("pw") 554
      = Except.ok (setStream [] 1
          (initStream 1 ("cam") ("192.0.2.1") ("admin") ("pw") 554
            ("sub") 15 0)) :=
  (C1_amended envDead 0 0 [] 1 ("cam") ("192.0.2.1") ("admin") ("pw") 554
    (fun _ => rfl)).1

/-- C2 counterexample: a running stream in the Connected state whose
read fails. The loop leaves the state entirely unchanged: the capture
handle is still held and open, is_connected stays true, and the cycle
merely sleeps 0.1 seconds; the very next cycle performs another read
on the same handle (here a successful one that publishes). This
contradicts the claim that the loop releases the handle and
transitions to Disconnected before any further read attempt. -/
theorem C2_counterexample :
    readFramesStep envDead 5 ReadOutcome.fail streamA
      = (streamA, LoopAction.sleptReadFail (1 / 10)) ∧
    streamA.cap = some capLive ∧
    capLive.opened = true ∧
    streamA.is_connected = true ∧
    (readFramesStep envDead 6 (ReadOutcome.ok frameA) streamA).2
      = LoopAction.published (1 / 15) := by
  exact ⟨rfl, rfl, rfl, rfl, rfl⟩

/-- C2 amended: when the loop is running with an open capture handle
and a read fails, the state is left untouched (handle kept, connected
flag kept) and the loop sleeps 0.1 seconds before retrying the read on
the same handle; the reconnect path is entered only when the handle is
absent or reports closed, and even that path never releases the old
handle. -/
theorem C2_amended (env : String → OpenOutcome) (tNow : Rat)
    (s : CameraStream) (hrun : s.running = true)
    (hcap : capOpen s = true) :
    readFramesStep env tNow ReadOutcome.fail s
      = (s, LoopAction.sleptReadFail (1 / 10)) := by
  simp [readFramesStep, hrun, hcap]

theorem C2_amended_witness :
    readFramesStep envDead 7 ReadOutcome.fail streamA
      = (streamA, LoopAction.sleptReadFail (1 / 10)) :=
  C2_amended envDead 7 streamA rfl rfl

/-! Helper lemmas about runs of successful reads. -/

theorem publishFrame_count (t : Rat) (f : Frame) (s : CameraStream) :
    (publishFrame t f s).frame_count = s.frame_count + 1 := rfl

theorem runPublishes_count (s : CameraStream) (xs : List (Rat × Frame)) :
    (runPublishes s xs).frame_count = s.frame_count + xs.length := by
  induction xs generalizing s with
  | nil => rfl
  | cons x t ih =>
    have h1 : runPublishes s (x :: t)
        = runPublishes (publishFrame x.1 x.2 s) t := rfl
    rw [h1, ih, publishFrame_count, List.length_cons]
    omega

/-- C7 counterexample: the fps denominator is the time since the
CameraStream object was constructed, not since the loop thread
started. A stream constructed at time 0 whose loop thread starts at
time 10 and which has delivered 30 frames by time 13 publishes
fps = 30 / 13 (elapsed since construction), not
30 / 3 = frame count over elapsed time since the loop started, so the
fps clause of the claim fails on this run. -/
theorem C7_counterexample :
    s7run.frame_count = 30 ∧
    s7start.start_time = 0 ∧
    s7start.loop_start_time = 10 ∧
    s7run.fps = 30 / 13 ∧
    ¬ s7run.fps
        = (s7run.frame_count : Rat) / (13 - s7start.loop_start_time) := by
  have h1 : s7run.fps = ((30 : Nat) : Rat) / ((13 : Rat) - 0) := rfl
  have h2 : s7run.frame_count = 30 := rfl
  have h3 : s7start.loop_start_time = 10 := rfl
  refine ⟨h2, rfl, h3, ?_, ?_⟩
  · rw [h1]
    norm_num
  · rw [h1, h2, h3]
    norm_num

/-- C7 amended: over any sequence of successful reads the frame
counter increases by exactly one per delivered frame (hence is
monotonically non-decreasing), and fps is recomputed exactly at the
reads that bring the counter to a multiple of 30, as the total frame
count divided by the wall-clock time elapsed since the CameraStream
object was constructed (self.start_time, set in the constructor) — not
since the acquisition loop thread started. -/
theorem C7_amended (s : CameraStream) (t : Rat) (f : Frame)
    (xs : List (Rat × Frame)) :
    (publishFrame t f s).frame_count = s.frame_count + 1 ∧
    ((s.frame_count + 1) % 30 = 0 →
      (publishFrame t f s).fps
        = ((s.frame_count + 1 : Nat) : Rat) / (t - s.start_time)) ∧
    ((s.frame_count + 1) % 30 ≠ 0 → (publishFrame t f s).fps = s.fps) ∧
    (runPublishes s xs).frame_count = s.frame_count + xs.length ∧
    s.frame_count ≤ (runPublishes s xs).frame_count := by
  refine ⟨rfl, fun h => ?_, fun h => ?_, runPublishes_count s xs, ?_⟩
  · simp [publishFrame, h]
  · simp [publishFrame, h]
  · rw [runPublishes_count s xs]
    exact Nat.le_add_right s.frame_count xs.length

theorem C7_amended_witness :
    (publishFrame 13 frameA s7pre).frame_count = s7pre.frame_count + 1 ∧
    (publishFrame 13 frameA s7pre).fps
      = ((s7pre.frame_count + 1 : Nat) : Rat) / (13 - s7pre.start_time) :=
  ⟨(C7_amended s7pre 13 frameA []).1,
   (C7_amended s7pre 13 frameA []).2.1 (by rfl)⟩

end CameraDB
